import Mathlib

/-!
ArtistDao governance and revenue-accounting engine: a shallow embedding.

This file embeds the in-memory ledger store (`server/storage.ts`, class
`MemStorage`), the governance and revenue route handlers
(`server/routes.ts`) and the drizzle schema / insert schemas
(`lib/web3.ts`) of the ArtistDao repository, and settles the specified
properties of the governance and revenue-accounting core against it.

Modelling conventions:
* JS `number` values (token amounts, vote weights, revenue amounts,
  share percentages) are modelled as `ℚ`.
* `Date` values are modelled as `Int` (epoch milliseconds); operations
  that read the wall clock (`new Date()`) take an explicit `now`
  argument.
* A JS `Map<number, T>` is modelled as an association list
  `List (Nat × T)`: `Map.set` replaces in place or appends, `Map.get`
  returns the binding, `Map.values()` lists values in insertion order.
* Route handlers are modelled as functions from the store (plus `now`
  and the parsed request body) to a result paired with the new store;
  HTTP error responses are modelled by the `ApiError` inductive.
* `zod` insert schemas produced by `createInsertSchema` check field
  types only (no range, length or emptiness constraints), so in this
  typed embedding a well-typed insert value always parses.
-/

/-- The `Map.get` on a JS `Map<number, α>` modelled as an association list. -/
def mapGet {α : Type} (m : List (Nat × α)) (k : Nat) : Option α :=
  match m with
  | [] => none
  | (k', v) :: rest => if k' = k then some v else mapGet rest k

/-- The `Map.set` on a JS `Map<number, α>`: replace the binding in place if the
key is present, append otherwise. -/
def mapSet {α : Type} (m : List (Nat × α)) (k : Nat) (v : α) : List (Nat × α) :=
  match m with
  | [] => [(k, v)]
  | (k', v') :: rest => if k' = k then (k, v) :: rest else (k', v') :: mapSet rest k v

/-- The `Array.from(map.values())`: the values in insertion order. -/
def mapValues {α : Type} (m : List (Nat × α)) : List α := m.map (·.2)

/-! ## Data model (drizzle schema, `lib/web3.ts` lines 372-455) -/

/-- The `users` table row. -/
structure User where
  id : Nat
  username : String
  password : String
  isArtist : Bool
  walletAddress : Option String
  bio : Option String
  profileImage : Option String
  createdAt : Int
deriving DecidableEq

/-- The `artists` table row. -/
structure Artist where
  id : Nat
  userId : Nat
  name : String
  genres : List String
  location : Option String
  bannerImage : Option String
  tokenName : String
  tokenSymbol : String
  tokenSupply : Int
  artistShare : ℚ
  tokenHolderShare : ℚ
  treasuryShare : ℚ
  contractAddress : Option String
deriving DecidableEq

/-- The `tokens` table row: a token-holding record. -/
structure Token where
  id : Nat
  artistId : Nat
  userId : Nat
  amount : ℚ
  txHash : Option String
  method : Option String
  purchaseDate : Int
deriving DecidableEq

/-- The `proposals` table row. -/
structure Proposal where
  id : Nat
  artistId : Nat
  creatorId : Nat
  title : String
  description : String
  type : String
  options : List String
  startDate : Int
  endDate : Int
  status : String
deriving DecidableEq

/-- The `votes` table row.  `optionIndex` is an `integer` column with no range
constraint, hence `Int`. -/
structure Vote where
  id : Nat
  proposalId : Nat
  userId : Nat
  optionIndex : Int
  weight : ℚ
  timestamp : Int
deriving DecidableEq

/-- The `revenues` table row (a RevenueEvent). -/
structure Revenue where
  id : Nat
  artistId : Nat
  amount : ℚ
  source : String
  date : Int
  distributed : Bool
deriving DecidableEq

/-- The `earnings` table row. -/
structure Earning where
  id : Nat
  revenueId : Nat
  userId : Option Nat
  artistId : Option Nat
  treasuryId : Option Nat
  amount : ℚ
  date : Int
  type : String
deriving DecidableEq

/-! Insert payloads: the drizzle insert schemas omit the store-assigned
fields (`id` plus defaulted timestamps/status/flags), `lib/web3.ts`
lines 458-492. -/

/-- The `insertUserSchema` payload (omits `id`, `createdAt`). -/
structure InsertUser where
  username : String
  password : String
  isArtist : Bool
  walletAddress : Option String
  bio : Option String
  profileImage : Option String
deriving DecidableEq

/-- The `insertArtistSchema` payload (omits `id`). -/
structure InsertArtist where
  userId : Nat
  name : String
  genres : List String
  location : Option String
  bannerImage : Option String
  tokenName : String
  tokenSymbol : String
  tokenSupply : Int
  artistShare : ℚ
  tokenHolderShare : ℚ
  treasuryShare : ℚ
  contractAddress : Option String
deriving DecidableEq

/-- The `insertTokenSchema` payload (omits `id`, `purchaseDate`). -/
structure InsertToken where
  artistId : Nat
  userId : Nat
  amount : ℚ
  txHash : Option String
  method : Option String
deriving DecidableEq

/-- The `insertProposalSchema` payload (omits `id`, `startDate`, `status`). -/
structure InsertProposal where
  artistId : Nat
  creatorId : Nat
  title : String
  description : String
  type : String
  options : List String
  endDate : Int
deriving DecidableEq

/-- The `insertVoteSchema` payload (omits `id`, `timestamp`).  The schema
validates only field types: any integer `optionIndex` and any numeric
`weight` pass. -/
structure InsertVote where
  proposalId : Nat
  userId : Nat
  optionIndex : Int
  weight : ℚ
deriving DecidableEq

/-- The `insertRevenueSchema` payload (omits `id`, `date`, `distributed`). -/
structure InsertRevenue where
  artistId : Nat
  amount : ℚ
  source : String
deriving DecidableEq

/-- The `insertEarningSchema` payload (omits `id`, `date`). -/
structure InsertEarning where
  revenueId : Nat
  userId : Option Nat
  artistId : Option Nat
  treasuryId : Option Nat
  amount : ℚ
  type : String
deriving DecidableEq

/-- The per-entity-type id counters (`MemStorage.currentIds`). -/
structure CurrentIds where
  user : Nat
  artist : Nat
  token : Nat
  proposal : Nat
  vote : Nat
  revenue : Nat
  earning : Nat
deriving DecidableEq

/-- The in-memory store (`server/storage.ts`, class `MemStorage`). -/
structure MemStorage where
  users : List (Nat × User)
  artists : List (Nat × Artist)
  tokens : List (Nat × Token)
  proposals : List (Nat × Proposal)
  votes : List (Nat × Vote)
  revenues : List (Nat × Revenue)
  earnings : List (Nat × Earning)
  currentIds : CurrentIds
deriving DecidableEq

/-- A freshly constructed store before any write: empty maps, every
counter at 1 (the constructor's demo `seedData` is asynchronous sample
content and is not part of the operations under specification). -/
def emptyStore : MemStorage :=
  { users := [], artists := [], tokens := [], proposals := [], votes := []
  , revenues := [], earnings := []
  , currentIds :=
      { user := 1, artist := 1, token := 1, proposal := 1, vote := 1
      , revenue := 1, earning := 1 } }

/-! ## Storage operations (`server/storage.ts` lines 280-461) -/

/-- The `MemStorage.getUser`. -/
def getUser (s : MemStorage) (id : Nat) : Option User := mapGet s.users id

/-- The `MemStorage.createUser`: assign the next user id, stamp `createdAt`. -/
def createUser (s : MemStorage) (now : Int) (u : InsertUser) : User × MemStorage :=
  let id := s.currentIds.user
  let newUser : User :=
    { id, username := u.username, password := u.password, isArtist := u.isArtist
    , walletAddress := u.walletAddress, bio := u.bio, profileImage := u.profileImage
    , createdAt := now }
  (newUser,
   { s with users := mapSet s.users id newUser
          , currentIds := { s.currentIds with user := id + 1 } })

/-- The `MemStorage.getArtist`. -/
def getArtist (s : MemStorage) (id : Nat) : Option Artist := mapGet s.artists id

/-- The `MemStorage.createArtist`. -/
def createArtist (s : MemStorage) (a : InsertArtist) : Artist × MemStorage :=
  let id := s.currentIds.artist
  let newArtist : Artist :=
    { id, userId := a.userId, name := a.name, genres := a.genres
    , location := a.location, bannerImage := a.bannerImage
    , tokenName := a.tokenName, tokenSymbol := a.tokenSymbol
    , tokenSupply := a.tokenSupply, artistShare := a.artistShare
    , tokenHolderShare := a.tokenHolderShare, treasuryShare := a.treasuryShare
    , contractAddress := a.contractAddress }
  (newArtist,
   { s with artists := mapSet s.artists id newArtist
          , currentIds := { s.currentIds with artist := id + 1 } })

/-- The `MemStorage.updateArtistContractAddress`: returns `undefined` and
leaves the store untouched when the artist id is absent. -/
def updateArtistContractAddress (s : MemStorage) (id : Nat) (contractAddress : String) :
    Option Artist × MemStorage :=
  match mapGet s.artists id with
  | none => (none, s)
  | some artist =>
    let updatedArtist : Artist := { artist with contractAddress := some contractAddress }
    (some updatedArtist, { s with artists := mapSet s.artists id updatedArtist })

/-- The `MemStorage.getUserTokens`: all holding rows of a user. -/
def getUserTokens (s : MemStorage) (userId : Nat) : List Token :=
  (mapValues s.tokens).filter (fun t => t.userId = userId)

/-- The `MemStorage.getArtistTokens`: all holding rows for an artist. -/
def getArtistTokens (s : MemStorage) (artistId : Nat) : List Token :=
  (mapValues s.tokens).filter (fun t => t.artistId = artistId)

/-- The `MemStorage.createToken`: assign the next token id, stamp `purchaseDate`. -/
def createToken (s : MemStorage) (now : Int) (t : InsertToken) : Token × MemStorage :=
  let id := s.currentIds.token
  let newToken : Token :=
    { id, artistId := t.artistId, userId := t.userId, amount := t.amount
    , txHash := t.txHash, method := t.method, purchaseDate := now }
  (newToken,
   { s with tokens := mapSet s.tokens id newToken
          , currentIds := { s.currentIds with token := id + 1 } })

/-- The `MemStorage.getProposal`. -/
def getProposal (s : MemStorage) (id : Nat) : Option Proposal := mapGet s.proposals id

/-- The `MemStorage.createProposal`: assign the next proposal id, stamp
`startDate = now` and `status = "active"`. -/
def createProposal (s : MemStorage) (now : Int) (p : InsertProposal) :
    Proposal × MemStorage :=
  let id := s.currentIds.proposal
  let newProposal : Proposal :=
    { id, artistId := p.artistId, creatorId := p.creatorId, title := p.title
    , description := p.description, type := p.type, options := p.options
    , startDate := now, endDate := p.endDate, status := "active" }
  (newProposal,
   { s with proposals := mapSet s.proposals id newProposal
          , currentIds := { s.currentIds with proposal := id + 1 } })

/-- The `MemStorage.updateProposalStatus`: overwrites the status of an existing
proposal with the given string (no transition validation); returns
`undefined` and leaves the store untouched when the id is absent. -/
def updateProposalStatus (s : MemStorage) (id : Nat) (status : String) :
    Option Proposal × MemStorage :=
  match mapGet s.proposals id with
  | none => (none, s)
  | some proposal =>
    let updatedProposal : Proposal := { proposal with status := status }
    (some updatedProposal, { s with proposals := mapSet s.proposals id updatedProposal })

/-- The `MemStorage.getActiveProposals`: proposals with stored status
`"active"` whose `endDate` is still in the future. -/
def getActiveProposals (s : MemStorage) (now : Int) : List Proposal :=
  (mapValues s.proposals).filter (fun p => p.status = "active" ∧ now < p.endDate)

/-- The `MemStorage.getProposalVotes`. -/
def getProposalVotes (s : MemStorage) (proposalId : Nat) : List Vote :=
  (mapValues s.votes).filter (fun v => v.proposalId = proposalId)

/-- The `MemStorage.createVote`: assign the next vote id, stamp `timestamp`. -/
def createVote (s : MemStorage) (now : Int) (v : InsertVote) : Vote × MemStorage :=
  let id := s.currentIds.vote
  let newVote : Vote :=
    { id, proposalId := v.proposalId, userId := v.userId
    , optionIndex := v.optionIndex, weight := v.weight, timestamp := now }
  (newVote,
   { s with votes := mapSet s.votes id newVote
          , currentIds := { s.currentIds with vote := id + 1 } })

/-- The `MemStorage.getArtistRevenues`. -/
def getArtistRevenues (s : MemStorage) (artistId : Nat) : List Revenue :=
  (mapValues s.revenues).filter (fun r => r.artistId = artistId)

/-- The `MemStorage.createRevenue`: assign the next revenue id, stamp `date`,
initialize `distributed := false`. -/
def createRevenue (s : MemStorage) (now : Int) (r : InsertRevenue) :
    Revenue × MemStorage :=
  let id := s.currentIds.revenue
  let newRevenue : Revenue :=
    { id, artistId := r.artistId, amount := r.amount, source := r.source
    , date := now, distributed := false }
  (newRevenue,
   { s with revenues := mapSet s.revenues id newRevenue
          , currentIds := { s.currentIds with revenue := id + 1 } })

/-- The `MemStorage.markRevenueDistributed`: sets `distributed := true` on an
existing revenue event; returns `undefined` and leaves the store
untouched when the id is absent. -/
def markRevenueDistributed (s : MemStorage) (id : Nat) : Option Revenue × MemStorage :=
  match mapGet s.revenues id with
  | none => (none, s)
  | some revenue =>
    let updatedRevenue : Revenue := { revenue with distributed := true }
    (some updatedRevenue, { s with revenues := mapSet s.revenues id updatedRevenue })

/-- The `MemStorage.createEarning`: assign the next earning id, stamp `date`. -/
def createEarning (s : MemStorage) (now : Int) (e : InsertEarning) :
    Earning × MemStorage :=
  let id := s.currentIds.earning
  let newEarning : Earning :=
    { id, revenueId := e.revenueId, userId := e.userId, artistId := e.artistId
    , treasuryId := e.treasuryId, amount := e.amount, date := now, type := e.type }
  (newEarning,
   { s with earnings := mapSet s.earnings id newEarning
          , currentIds := { s.currentIds with earning := id + 1 } })

/-! ## Derived computations and route handlers (`server/routes.ts`) -/

/-- HTTP-level errors the modelled route handlers can produce. -/
inductive ApiError where
  /-- 404 (`NotFoundError`). -/
  | notFound
  /-- 403 "User does not hold tokens for this artist" (`UnauthorizedError`). -/
  | forbidden
  /-- 400 from a failed schema parse (`ValidationError`). -/
  | badRequest
deriving DecidableEq

/-- Holdings Accessor: a user's total token holding for an artist, exactly
as the vote route computes it (`routes.ts` lines 260-268): the user's
token rows, filtered to the artist, `amount`s summed. -/
def totalHolding (s : MemStorage) (artistId userId : Nat) : ℚ :=
  (((getUserTokens s userId).filter (fun t => t.artistId = artistId)).map
    (·.amount)).sum

/-- The `POST /api/proposals/:id/vote` (`routes.ts` lines 245-279).  The body
is parsed by `insertVoteSchema` with `proposalId` overridden by the path
parameter; the schema checks field types only, which the `InsertVote`
type already guarantees, so the parse cannot fail here.  The handler
rejects only a missing proposal (404) and a user with no token rows for
the proposal's artist (403); the stored weight is the recomputed token
sum, overwriting whatever `weight` the body carried. -/
def castVoteRoute (s : MemStorage) (now : Int) (proposalId : Nat)
    (body : InsertVote) : Except ApiError Vote × MemStorage :=
  match mapGet s.proposals proposalId with
  | none => (.error .notFound, s)
  | some proposal =>
    let voteData : InsertVote := { body with proposalId := proposalId }
    let userTokens := getUserTokens s voteData.userId
    let artistTokens := userTokens.filter (fun t => t.artistId = proposal.artistId)
    if artistTokens.length = 0 then (.error .forbidden, s)
    else
      let tokenAmount := (artistTokens.map (·.amount)).sum
      let result := createVote s now { voteData with weight := tokenAmount }
      (.ok result.1, result.2)

/-- The `POST /api/proposals` (`routes.ts` lines 234-242).  The body is parsed
by `insertProposalSchema`, which checks field types only (no option-count,
option-emptiness or endDate check), so in this typed embedding the
handler always stores the proposal. -/
def createProposalRoute (s : MemStorage) (now : Int) (body : InsertProposal) :
    Except ApiError Proposal × MemStorage :=
  let result := createProposal s now body
  (.ok result.1, result.2)

/-- The per-proposal vote tabulation computed by `GET /api/proposals/active`
(`routes.ts` lines 138-172) and `GET /api/artists/:id/proposals`
(lines 194-225): `counts` is the `optionVotes` array (one slot per
option), `total` is `counts.reduce((a, b) => a + b, 0)`, and
`percentages[i]` is `Math.round(100 * counts[i] / total)` when
`total > 0` and `0` otherwise.

Fidelity note: the source accumulates with
`optionVotes[vote.optionIndex] += vote.weight`.  For `optionIndex` in
`[0, options.length)` and for negative `optionIndex` (which writes a
non-index property and leaves the array elements untouched) this
definition matches the source exactly; a vote with
`optionIndex ≥ options.length` makes the source's totals `NaN`, and the
theorems below never evaluate the tabulation on such a vote set. -/
structure VoteTally where
  counts : List ℚ
  percentages : List ℤ
  total : ℚ
deriving DecidableEq

/-- Tabulate a vote list against an option list (see `VoteTally`). -/
def tabulateVotes (options : List String) (votes : List Vote) : VoteTally :=
  let counts := (List.range options.length).map
    (fun (i : ℕ) =>
      ((votes.filter (fun v => v.optionIndex = (i : Int))).map (·.weight)).sum)
  let total := counts.sum
  let percentages := counts.map (fun c => if 0 < total then round (c / total * 100) else 0)
  { counts := counts, percentages := percentages, total := total }

/-- The tally of a stored proposal: its options against its stored votes. -/
def proposalTally (s : MemStorage) (p : Proposal) : VoteTally :=
  tabulateVotes p.options (getProposalVotes s p.id)

/-- The three-way distribution block of `GET /api/artists/:id/revenue`
(`routes.ts` lines 380-414): total revenue for the artist and the
percentage split of that total. -/
structure DistributionView where
  totalEarnings : ℚ
  artistAmount : ℚ
  tokenHolderAmount : ℚ
  treasuryAmount : ℚ
deriving DecidableEq

/-- Compute the revenue-distribution view for an artist from its revenue
rows (`routes.ts` lines 381-386). -/
def revenueDistributionView (artist : Artist) (revenues : List Revenue) :
    DistributionView :=
  let totalEarnings := (revenues.map (·.amount)).sum
  { totalEarnings := totalEarnings
  , artistAmount := totalEarnings * (artist.artistShare / 100)
  , tokenHolderAmount := totalEarnings * (artist.tokenHolderShare / 100)
  , treasuryAmount := totalEarnings * (artist.treasuryShare / 100) }

/-! ## Revenue Distributor -/

/-- Errors of the `distribute` operation. -/
inductive DistError where
  | notFound
  | invalidState
deriving DecidableEq

/-- The distinct holders appearing in a list of token rows, in first-seen
order. -/
def holderIds (toks : List Token) : List Nat := (toks.map (·.userId)).dedup

/-- Modelled from the spec: `distribute(revenueEvent, artist)` (§4.5) has
no implementation under `src/` — the repository contains only the storage
operations it is specified against (`createEarning`,
`markRevenueDistributed`, `getArtistTokens`).  Following the spec's words:
fail `InvalidStateError` if the event is already distributed; split the
amount by the artist's three share percentages; give each holder with a
nonzero total holding a pro-rata slice of the token-holder pool
(`pool * holderTotal / tokenSupply`; zero holders are skipped); persist
one Earning per holder plus one artist and one treasury Earning; then
mark the event distributed.  On any failure the store is unchanged. -/
def distribute (s : MemStorage) (now : Int) (revenueId : Nat) :
    Except DistError Unit × MemStorage :=
  match mapGet s.revenues revenueId with
  | none => (.error .notFound, s)
  | some rev =>
    if rev.distributed then (.error .invalidState, s)
    else
      match mapGet s.artists rev.artistId with
      | none => (.error .notFound, s)
      | some artist =>
        let artistAmount := rev.amount * (artist.artistShare / 100)
        let treasuryAmount := rev.amount * (artist.treasuryShare / 100)
        let pool := rev.amount * (artist.tokenHolderShare / 100)
        let holders := (holderIds (getArtistTokens s rev.artistId)).filter
          (fun u => totalHolding s rev.artistId u ≠ 0)
        let s1 := holders.foldl
          (fun acc u =>
            (createEarning acc now
              { revenueId := revenueId, userId := some u, artistId := none
              , treasuryId := none
              , amount := pool * (totalHolding s rev.artistId u / (artist.tokenSupply : ℚ))
              , type := "tokenHolder" }).2) s
        let s2 := (createEarning s1 now
          { revenueId := revenueId, userId := none, artistId := some rev.artistId
          , treasuryId := none, amount := artistAmount, type := "artist" }).2
        let s3 := (createEarning s2 now
          { revenueId := revenueId, userId := none, artistId := none
          , treasuryId := some 1, amount := treasuryAmount, type := "treasury" }).2
        (.ok (), (markRevenueDistributed s3 revenueId).2)

/-! ## Store operations as a step type

Every mutating operation reachable through the storage interface and the
modelled routes, for stating invariants over arbitrary writes. -/

/-- One mutating operation on the store. -/
inductive StoreOp where
  | createUser (u : InsertUser)
  | createArtist (a : InsertArtist)
  | updateArtistContractAddress (id : Nat) (addr : String)
  | createToken (t : InsertToken)
  | createProposal (p : InsertProposal)
  | updateProposalStatus (id : Nat) (status : String)
  | createVote (v : InsertVote)
  | createRevenue (r : InsertRevenue)
  | markRevenueDistributed (id : Nat)
  | createEarning (e : InsertEarning)
  | distribute (id : Nat)

/-- Apply a store operation (discarding its return value). -/
def applyOp (s : MemStorage) (now : Int) : StoreOp → MemStorage
  | .createUser u => (createUser s now u).2
  | .createArtist a => (createArtist s a).2
  | .updateArtistContractAddress id addr => (updateArtistContractAddress s id addr).2
  | .createToken t => (createToken s now t).2
  | .createProposal p => (createProposal s now p).2
  | .updateProposalStatus id st => (updateProposalStatus s id st).2
  | .createVote v => (createVote s now v).2
  | .createRevenue r => (createRevenue s now r).2
  | .markRevenueDistributed id => (markRevenueDistributed s id).2
  | .createEarning e => (createEarning s now e).2
  | .distribute id => (distribute s now id).2

/-- Reachability invariant of the store: every revenue key is below the
revenue id counter (true of every store built from `emptyStore` by the
operations, since `createRevenue` allocates the counter and bumps it). -/
def RevenueIdsFresh (s : MemStorage) : Prop :=
  ∀ k ∈ s.revenues.map Prod.fst, k < s.currentIds.revenue

/-! ## Concrete fixtures (used by witnesses and counterexamples) -/

/-- An artist with the spec's scenario configuration: supply 1000000,
shares 60/30/10. -/
def auroraArtist : Artist :=
  { id := 1, userId := 1, name := "Aurora", genres := ["Electronic"]
  , location := some "Stockholm, Sweden", bannerImage := none
  , tokenName := "AuroraShares", tokenSymbol := "AURORA", tokenSupply := 1000000
  , artistShare := 60, tokenHolderShare := 30, treasuryShare := 10
  , contractAddress := none }

/-- A holding row: user 2 holds 250 tokens of artist 1. -/
def fanToken : Token :=
  { id := 1, artistId := 1, userId := 2, amount := 250, txHash := none
  , method := none, purchaseDate := 0 }

/-- A holding row with amount 0 for user 2 and artist 1. -/
def zeroToken : Token := { fanToken with amount := 0 }

/-- An active two-option proposal of artist 1 ending at time 1000. -/
def activeProposal : Proposal :=
  { id := 1, artistId := 1, creatorId := 1, title := "Album Concept Direction"
  , description := "Vote on the creative direction", type := "creative"
  , options := ["Ethereal Electronic", "Acoustic Reimagining"]
  , startDate := 0, endDate := 1000, status := "active" }

/-- The same proposal with `endDate` 50, i.e. already over at time 100,
while its stored status still says "active". -/
def expiredProposal : Proposal := { activeProposal with endDate := 50 }

/-- The same proposal in the terminal "closed" state. -/
def closedProposal : Proposal := { activeProposal with status := "closed" }

/-- A store holding artist 1, one holding row and one proposal. -/
def voteStore (p : Proposal) (t : Token) : MemStorage :=
  { emptyStore with
      artists := [(1, auroraArtist)], tokens := [(1, t)], proposals := [(1, p)]
      , currentIds := { emptyStore.currentIds with artist := 2, token := 2, proposal := 2 } }

/-- A store holding the active proposal and a given vote map. -/
def tallyStore (vs : List (Nat × Vote)) : MemStorage :=
  { emptyStore with
      proposals := [(1, activeProposal)], votes := vs
      , currentIds := { emptyStore.currentIds with proposal := 2, vote := vs.length + 1 } }

/-- Scenario C vote: weight 250 on option 0. -/
def voteA : Vote :=
  { id := 1, proposalId := 1, userId := 2, optionIndex := 0, weight := 250, timestamp := 10 }

/-- Scenario C vote: weight 750 on option 1. -/
def voteB : Vote :=
  { id := 2, proposalId := 1, userId := 3, optionIndex := 1, weight := 750, timestamp := 20 }

/-- A stored vote whose `optionIndex` is the out-of-range value `-1`. -/
def strayVote : Vote :=
  { id := 1, proposalId := 1, userId := 2, optionIndex := -1, weight := 5, timestamp := 10 }

/-- A revenue event already marked distributed. -/
def distributedRevenue : Revenue :=
  { id := 1, artistId := 1, amount := 100, source := "streaming", date := 0
  , distributed := true }

/-- A store holding artist 1 and the already-distributed revenue event. -/
def distributedRevenueStore : MemStorage :=
  { emptyStore with
      artists := [(1, auroraArtist)], revenues := [(1, distributedRevenue)]
      , currentIds := { emptyStore.currentIds with artist := 2, revenue := 2 } }

/-- A recognized revenue event of amount 100 for artist 1. -/
def rev100 : Revenue :=
  { id := 1, artistId := 1, amount := 100, source := "streaming", date := 0
  , distributed := false }

/-- A proposal-creation body with a single option and a past `endDate`. -/
def badProposalBody : InsertProposal :=
  { artistId := 1, creatorId := 1, title := "T", description := "D"
  , type := "creative", options := ["A"], endDate := -5 }

/-! ## Lemmas about the map model -/

theorem mapGet_mapSet_self {α : Type} (m : List (Nat × α)) (k : Nat) (v : α) :
    mapGet (mapSet m k v) k = some v := by
  induction m with
  | nil => simp [mapGet, mapSet]
  | cons p rest ih =>
    obtain ⟨k', v'⟩ := p
    by_cases h : k' = k
    · simp [mapGet, mapSet, h]
    · simp [mapGet, mapSet, h, ih]

theorem mapGet_mapSet_ne {α : Type} (m : List (Nat × α)) {k k' : Nat} (v : α)
    (h : k ≠ k') : mapGet (mapSet m k v) k' = mapGet m k' := by
  induction m with
  | nil => simp [mapGet, mapSet, h]
  | cons p rest ih =>
    obtain ⟨k'', v''⟩ := p
    by_cases h2 : k'' = k
    · subst h2
      simp [mapGet, mapSet, h]
    · by_cases h3 : k'' = k'
      · simp [mapGet, mapSet, h2, h3, Ne.symm h]
      · simp [mapGet, mapSet, h2, h3, ih]

theorem mapGet_some_key_mem {α : Type} {m : List (Nat × α)} {k : Nat} {v : α}
    (h : mapGet m k = some v) : k ∈ m.map Prod.fst := by
  induction m with
  | nil => simp [mapGet] at h
  | cons p rest ih =>
    obtain ⟨k', v'⟩ := p
    by_cases h2 : k' = k
    · simp [h2]
    · simp [mapGet, h2] at h
      simp [ih h]

/-! ## Helper lemmas -/

theorem revenues_createEarning (s : MemStorage) (now : Int) (e : InsertEarning) :
    ((createEarning s now e).2).revenues = s.revenues := rfl

theorem revenues_foldl_createEarning (now : Int) (f : Nat → InsertEarning) :
    ∀ (l : List Nat) (s : MemStorage),
      ((l.foldl (fun acc u => (createEarning acc now (f u)).2) s)).revenues = s.revenues := by
  intro l
  induction l with
  | nil => intro s; rfl
  | cons a t ih =>
    intro s
    rw [List.foldl_cons, ih]
    rfl

/-- The `markRevenueDistributed` never resets a distributed flag: a revenue row
that is distributed stays distributed across any call. -/
theorem mark_preserves_distributed (s : MemStorage) (id rid : Nat) (rev : Revenue)
    (hget : mapGet s.revenues rid = some rev) (hdist : rev.distributed = true) :
    ∃ rev', mapGet ((markRevenueDistributed s id).2).revenues rid = some rev' ∧
      rev'.distributed = true := by
  cases h : mapGet s.revenues id with
  | none => exact ⟨rev, by simp [markRevenueDistributed, h, hget], hdist⟩
  | some r =>
    by_cases hid : id = rid
    · subst hid
      exact ⟨{ r with distributed := true },
        by simp [markRevenueDistributed, h, mapGet_mapSet_self], rfl⟩
    · exact ⟨rev, by simp [markRevenueDistributed, h, mapGet_mapSet_ne _ _ hid, hget], hdist⟩

/-! ## The claims -/

/-- C10: for an id not present in the store, `updateProposalStatus`,
`updateArtistContractAddress` and `markRevenueDistributed` each return the
explicit not-found signal (`none`, modelling `undefined`) without
throwing, and return the store exactly as it was — every entity map and
every per-entity-type id counter included. -/
theorem notFound_mutations_are_noops (s : MemStorage) (pid aid rid : Nat)
    (st addr : String)
    (hp : mapGet s.proposals pid = none)
    (ha : mapGet s.artists aid = none)
    (hr : mapGet s.revenues rid = none) :
    updateProposalStatus s pid st = (none, s) ∧
    updateArtistContractAddress s aid addr = (none, s) ∧
    markRevenueDistributed s rid = (none, s) := by
  refine ⟨?_, ?_, ?_⟩ <;>
    simp [updateProposalStatus, updateArtistContractAddress, markRevenueDistributed,
      hp, ha, hr]

theorem notFound_mutations_are_noops_witness :
    mapGet emptyStore.proposals 1 = none ∧
    mapGet emptyStore.artists 1 = none ∧
    mapGet emptyStore.revenues 1 = none ∧
    updateProposalStatus emptyStore 1 "closed" = (none, emptyStore) ∧
    updateArtistContractAddress emptyStore 1 "0xabc" = (none, emptyStore) ∧
    markRevenueDistributed emptyStore 1 = (none, emptyStore) := by
  have h := notFound_mutations_are_noops emptyStore 1 1 1 "closed" "0xabc" rfl rfl rfl
  exact ⟨rfl, rfl, rfl, h.1, h.2.1, h.2.2⟩

/-- C9 counterexample: the claim is false on the code.
`MemStorage.updateProposalStatus` performs no transition check: on a
proposal already in the terminal state "closed" it does not fail with any
error, and it changes the stored status (here back to "active"). -/
theorem terminal_status_cex :
    closedProposal.status = "closed" ∧
    updateProposalStatus (voteStore closedProposal fanToken) 1 "active" =
      (some { closedProposal with status := "active" },
       { voteStore closedProposal fanToken with
          proposals := [(1, { closedProposal with status := "active" })] }) := by
  constructor
  · rfl
  · simp [updateProposalStatus, voteStore, emptyStore, mapGet, mapSet]

/-- C9 amended: `updateProposalStatus` performs no transition validation.
For every existing proposal — terminal or not — it overwrites the stored
status with the given string and returns the updated proposal; the only
failure signal is `none` for a missing id, so "closed"/"cancelled" are
not terminal: the status can be changed again by any later call. -/
theorem updateProposalStatus_overwrites (s : MemStorage) (id : Nat) (st : String)
    (p : Proposal) (hp : mapGet s.proposals id = some p) :
    updateProposalStatus s id st =
      (some { p with status := st },
       { s with proposals := mapSet s.proposals id { p with status := st } }) := by
  simp [updateProposalStatus, hp]

theorem updateProposalStatus_overwrites_witness :
    mapGet (voteStore closedProposal fanToken).proposals 1 = some closedProposal ∧
    updateProposalStatus (voteStore closedProposal fanToken) 1 "cancelled" =
      (some { closedProposal with status := "cancelled" },
       { voteStore closedProposal fanToken with
          proposals := mapSet (voteStore closedProposal fanToken).proposals 1
            { closedProposal with status := "cancelled" } }) :=
  ⟨rfl, updateProposalStatus_overwrites (voteStore closedProposal fanToken) 1
    "cancelled" closedProposal rfl⟩

/-- C8 counterexample: the claim is false on the code.  A proposal body
with a single option (fewer than 2) and a past `endDate` is accepted by
`POST /api/proposals`: the route succeeds (201) and stores the proposal —
no `ValidationError` is raised for option count, option emptiness, or
`endDate <= now`. -/
theorem createProposal_no_validation_cex :
    badProposalBody.options.length = 1 ∧ badProposalBody.endDate < 0 ∧
    (createProposalRoute emptyStore 0 badProposalBody).1 =
      .ok { id := 1, artistId := 1, creatorId := 1, title := "T", description := "D"
          , type := "creative", options := ["A"], startDate := 0, endDate := -5
          , status := "active" } ∧
    (createProposalRoute emptyStore 0 badProposalBody).2.proposals =
      [(1, { id := 1, artistId := 1, creatorId := 1, title := "T", description := "D"
           , type := "creative", options := ["A"], startDate := 0, endDate := -5
           , status := "active" })] := by
  refine ⟨rfl, by norm_num [badProposalBody], ?_, ?_⟩ <;>
    simp [createProposalRoute, createProposal, badProposalBody, emptyStore, mapSet]

/-- C8 amended: `POST /api/proposals` validates only field types (the
insert schema carries no option-count, option-emptiness or endDate
constraint), so every well-typed body is accepted and stored; the
success half of the claim holds: the stored proposal has
`status = "active"` and `startDate = now`, with options and endDate taken
verbatim from the body. -/
theorem createProposalRoute_accepts_all (s : MemStorage) (now : Int)
    (body : InsertProposal) :
    ∃ p s', createProposalRoute s now body = (.ok p, s') ∧
      p.status = "active" ∧ p.startDate = now ∧ p.options = body.options ∧
      p.endDate = body.endDate ∧ mapGet s'.proposals p.id = some p := by
  refine ⟨(createProposal s now body).1, (createProposal s now body).2,
    rfl, rfl, rfl, rfl, rfl, ?_⟩
  show mapGet (mapSet s.proposals s.currentIds.proposal _) s.currentIds.proposal = _
  rw [mapGet_mapSet_self]
  rfl

/-- C7: when the artist's three share percentages sum to 100, the
computed artist, token-holder and treasury amounts of the revenue view
sum exactly to the revenue total. -/
theorem revenue_split_conservation (artist : Artist) (revenues : List Revenue)
    (hsum : artist.artistShare + artist.tokenHolderShare + artist.treasuryShare = 100) :
    (revenueDistributionView artist revenues).artistAmount +
      (revenueDistributionView artist revenues).tokenHolderAmount +
      (revenueDistributionView artist revenues).treasuryAmount =
      (revenueDistributionView artist revenues).totalEarnings := by
  simp only [revenueDistributionView]
  linear_combination ((revenues.map (·.amount)).sum / 100) * hsum

theorem revenue_split_conservation_witness :
    auroraArtist.artistShare + auroraArtist.tokenHolderShare +
      auroraArtist.treasuryShare = 100 ∧
    revenueDistributionView auroraArtist [rev100] =
      { totalEarnings := 100, artistAmount := 60, tokenHolderAmount := 30
      , treasuryAmount := 10 } ∧
    (revenueDistributionView auroraArtist [rev100]).artistAmount +
      (revenueDistributionView auroraArtist [rev100]).tokenHolderAmount +
      (revenueDistributionView auroraArtist [rev100]).treasuryAmount =
      (revenueDistributionView auroraArtist [rev100]).totalEarnings :=
  ⟨by norm_num [auroraArtist],
   by simp [revenueDistributionView, rev100, auroraArtist]; norm_num,
   revenue_split_conservation auroraArtist [rev100] (by norm_num [auroraArtist])⟩

/-- C2 counterexample: the claim is false on the code.  At time 100 the
proposal's `endDate` (50) has passed while its stored status still says
"active", so it is not votable; yet `POST /api/proposals/:id/vote`
performs no lifecycle check at all: the vote succeeds (201) and a Vote
row is recorded — no `InvalidStateError`. -/
theorem castVote_expired_proposal_cex :
    expiredProposal.status = "active" ∧ expiredProposal.endDate < 100 ∧
    (castVoteRoute (voteStore expiredProposal fanToken) 100 1 ⟨1, 2, 0, 0⟩).1 =
      .ok { id := 1, proposalId := 1, userId := 2, optionIndex := 0, weight := 250
          , timestamp := 100 } ∧
    (castVoteRoute (voteStore expiredProposal fanToken) 100 1 ⟨1, 2, 0, 0⟩).2.votes =
      [(1, { id := 1, proposalId := 1, userId := 2, optionIndex := 0, weight := 250
           , timestamp := 100 })] := by
  refine ⟨rfl, by norm_num [expiredProposal, activeProposal], ?_, ?_⟩ <;>
    simp [castVoteRoute, voteStore, emptyStore, getUserTokens, mapValues, mapGet,
      mapSet, createVote, fanToken, auroraArtist, expiredProposal, activeProposal]

/-- C2 amended: `castVote` performs no votability check.  For every
stored proposal — whatever its stored status and however its `endDate`
relates to the current time — a vote request from a user who holds at
least one token row for the proposal's artist succeeds and a Vote row is
recorded; non-votable proposals are merely excluded from the
active-proposals listing (`getActiveProposals`), never protected at
vote-cast time. -/
theorem castVote_ignores_lifecycle (s : MemStorage) (now : Int) (pid : Nat)
    (body : InsertVote) (p : Proposal)
    (hp : mapGet s.proposals pid = some p)
    (ht : ((getUserTokens s body.userId).filter
      (fun t => t.artistId = p.artistId)).length ≠ 0) :
    ∃ v s', castVoteRoute s now pid body = (.ok v, s') ∧
      mapGet s'.votes s.currentIds.vote = some v := by
  simp only [castVoteRoute, hp]
  rw [if_neg ht]
  exact ⟨_, _, rfl, by simp [createVote, mapGet_mapSet_self]⟩

theorem castVote_ignores_lifecycle_witness :
    mapGet (voteStore expiredProposal fanToken).proposals 1 = some expiredProposal ∧
    ∃ v s',
      castVoteRoute (voteStore expiredProposal fanToken) 100 1 ⟨1, 2, 1, 99⟩ =
        (.ok v, s') ∧
      mapGet s'.votes 1 = some v := by
  refine ⟨rfl, ?_⟩
  exact castVote_ignores_lifecycle (voteStore expiredProposal fanToken) 100 1
    ⟨1, 2, 1, 99⟩ expiredProposal rfl
    (by simp [voteStore, emptyStore, getUserTokens, mapValues, fanToken,
      expiredProposal, activeProposal])

/-- C3 counterexample: the claim is false on the code.  The active
proposal has 2 options, so optionIndex 2 is out of `[0, 2)`; yet the vote
route performs no range check (the insert schema checks types only): the
request succeeds and a Vote with `optionIndex = 2` is persisted — no
`ValidationError`. -/
theorem castVote_option_range_cex :
    activeProposal.options.length = 2 ∧
    (castVoteRoute (voteStore activeProposal fanToken) 100 1 ⟨1, 2, 2, 0⟩).1 =
      .ok { id := 1, proposalId := 1, userId := 2, optionIndex := 2, weight := 250
          , timestamp := 100 } ∧
    (castVoteRoute (voteStore activeProposal fanToken) 100 1 ⟨1, 2, 2, 0⟩).2.votes =
      [(1, { id := 1, proposalId := 1, userId := 2, optionIndex := 2, weight := 250
           , timestamp := 100 })] := by
  refine ⟨rfl, ?_, ?_⟩ <;>
    simp [castVoteRoute, voteStore, emptyStore, getUserTokens, mapValues, mapGet,
      mapSet, createVote, fanToken, auroraArtist, activeProposal]

/-- C3 amended: `optionIndex` is not validated against the proposal's
option list.  For every stored proposal and every integer `optionIndex`
in the body — in range or not, negative included — a request from a user
holding at least one token row for the artist succeeds and the persisted
Vote carries exactly the caller's `optionIndex` (its weight being the
server-computed holding). -/
theorem castVote_stores_any_optionIndex (s : MemStorage) (now : Int) (pid : Nat)
    (body : InsertVote) (p : Proposal)
    (hp : mapGet s.proposals pid = some p)
    (ht : ((getUserTokens s body.userId).filter
      (fun t => t.artistId = p.artistId)).length ≠ 0) :
    ∃ v s', castVoteRoute s now pid body = (.ok v, s') ∧
      v.optionIndex = body.optionIndex ∧
      v.weight = totalHolding s p.artistId body.userId ∧
      mapGet s'.votes s.currentIds.vote = some v := by
  simp only [castVoteRoute, hp]
  rw [if_neg ht]
  exact ⟨_, _, rfl, rfl, rfl, by simp [createVote, mapGet_mapSet_self]⟩

theorem castVote_stores_any_optionIndex_witness :
    mapGet (voteStore activeProposal fanToken).proposals 1 = some activeProposal ∧
    ∃ v s',
      castVoteRoute (voteStore activeProposal fanToken) 100 1 ⟨1, 2, -7, 0⟩ =
        (.ok v, s') ∧
      v.optionIndex = -7 ∧
      v.weight = totalHolding (voteStore activeProposal fanToken) 1 2 ∧
      mapGet s'.votes 1 = some v := by
  refine ⟨rfl, ?_⟩
  exact castVote_stores_any_optionIndex (voteStore activeProposal fanToken) 100 1
    ⟨1, 2, -7, 0⟩ activeProposal rfl
    (by simp [voteStore, emptyStore, getUserTokens, mapValues, fanToken,
      activeProposal])

/-- C4 counterexample: the claim is false on the code.  User 2's total
holding for artist 1 is 0 (a single holding row with amount 0), yet the
vote route only rejects users with *no* holding rows
(`artistTokens.length === 0`): the request succeeds and a Vote with
weight 0 is persisted — no `UnauthorizedError`. -/
theorem castVote_zero_weight_cex :
    totalHolding (voteStore activeProposal zeroToken) 1 2 = 0 ∧
    (castVoteRoute (voteStore activeProposal zeroToken) 100 1 ⟨1, 2, 0, 7⟩).1 =
      .ok { id := 1, proposalId := 1, userId := 2, optionIndex := 0, weight := 0
          , timestamp := 100 } ∧
    (castVoteRoute (voteStore activeProposal zeroToken) 100 1 ⟨1, 2, 0, 7⟩).2.votes =
      [(1, { id := 1, proposalId := 1, userId := 2, optionIndex := 0, weight := 0
           , timestamp := 100 })] := by
  refine ⟨?_, ?_, ?_⟩ <;>
    simp [totalHolding, castVoteRoute, voteStore, emptyStore, getUserTokens,
      mapValues, mapGet, mapSet, createVote, zeroToken, fanToken, auroraArtist,
      activeProposal]

/-- C4 amended: the vote route fails with the 403 `UnauthorizedError`
(and persists nothing, the store being returned unchanged) exactly when
the user has *no* TokenHolding rows for the proposal's artist; a user
whose rows exist but sum to weight 0 passes the check (see the
counterexample). -/
theorem castVote_rejects_only_rowless (s : MemStorage) (now : Int) (pid : Nat)
    (body : InsertVote) (p : Proposal)
    (hp : mapGet s.proposals pid = some p)
    (ht : (getUserTokens s body.userId).filter (fun t => t.artistId = p.artistId) = []) :
    castVoteRoute s now pid body = (.error .forbidden, s) := by
  simp [castVoteRoute, hp, ht]

theorem castVote_rejects_only_rowless_witness :
    mapGet (voteStore activeProposal fanToken).proposals 1 = some activeProposal ∧
    (getUserTokens (voteStore activeProposal fanToken) 5).filter
      (fun t => t.artistId = activeProposal.artistId) = [] ∧
    castVoteRoute (voteStore activeProposal fanToken) 100 1 ⟨1, 5, 0, 3⟩ =
      (.error .forbidden, voteStore activeProposal fanToken) := by
  refine ⟨rfl, ?_, ?_⟩
  · simp [voteStore, emptyStore, getUserTokens, mapValues, fanToken, activeProposal]
  · exact castVote_rejects_only_rowless (voteStore activeProposal fanToken) 100 1
      ⟨1, 5, 0, 3⟩ activeProposal rfl
      (by simp [voteStore, emptyStore, getUserTokens, mapValues, fanToken,
        activeProposal])

/-- C5: vote weight is server-derived.  Two vote requests identical
except for the caller-supplied `weight` field produce identical results
(same response, same resulting store), and on success the persisted
Vote's weight equals the user's total token holding for the proposal's
artist at cast time. -/
theorem castVote_weight_server_derived (s : MemStorage) (now : Int) (pid : Nat)
    (body : InsertVote) (w1 w2 : ℚ) :
    castVoteRoute s now pid { body with weight := w1 } =
      castVoteRoute s now pid { body with weight := w2 } ∧
    ∀ (v : Vote) (s' : MemStorage), castVoteRoute s now pid body = (.ok v, s') →
      ∃ p, mapGet s.proposals pid = some p ∧
        v.weight = totalHolding s p.artistId body.userId := by
  constructor
  · rfl
  · intro v s' h
    cases hp : mapGet s.proposals pid with
    | none => simp [castVoteRoute, hp] at h
    | some p =>
      refine ⟨p, rfl, ?_⟩
      simp only [castVoteRoute, hp] at h
      by_cases hl : ((getUserTokens s body.userId).filter
          (fun t => t.artistId = p.artistId)).length = 0
      · rw [if_pos hl] at h
        simp at h
      · rw [if_neg hl] at h
        simp only [Prod.mk.injEq, Except.ok.injEq] at h
        rw [← h.1]
        rfl

theorem castVote_weight_server_derived_witness :
    castVoteRoute (voteStore activeProposal fanToken) 100 1 ⟨1, 2, 0, 3⟩ =
      castVoteRoute (voteStore activeProposal fanToken) 100 1 ⟨1, 2, 0, 999⟩ :=
  (castVote_weight_server_derived (voteStore activeProposal fanToken) 100 1
    ⟨1, 2, 0, 0⟩ 3 999).1

theorem sum_map_add_fun {α : Type} (l : List α) (f g : α → ℚ) :
    (l.map (fun a => f a + g a)).sum = (l.map f).sum + (l.map g).sum := by
  induction l with
  | nil => simp
  | cons a t ih =>
    simp [ih]
    ring

theorem sum_map_range_indicator (n : ℕ) (j : ℤ) (w : ℚ) (h0 : 0 ≤ j)
    (h1 : j < (n : Int)) :
    ((List.range n).map (fun (i : ℕ) => if j = (i : Int) then w else 0)).sum = w := by
  induction n with
  | zero => omega
  | succ n ih =>
    rw [List.range_succ, List.map_append, List.sum_append]
    by_cases hj : j = (n : Int)
    · have hz : ∀ x ∈ (List.range n).map (fun (i : ℕ) => if j = (i : Int) then w else 0),
          x = 0 := by
        intro x hx
        simp only [List.mem_map, List.mem_range] at hx
        obtain ⟨i, hi, rfl⟩ := hx
        have hne : j ≠ (i : Int) := by omega
        simp [hne]
      rw [List.sum_eq_zero hz]
      simp [hj]
    · have h1' : j < (n : Int) := by omega
      simp [ih h1', hj]

/-- Counting every vote once: when every vote's optionIndex lies in
`[0, n)`, summing the per-option weight sums over the `n` options equals
summing the weights of all votes. -/
theorem sum_range_filter_weights (n : ℕ) (votes : List Vote)
    (h : ∀ v ∈ votes, 0 ≤ v.optionIndex ∧ v.optionIndex < (n : Int)) :
    ((List.range n).map (fun (i : ℕ) =>
        ((votes.filter (fun v => v.optionIndex = (i : Int))).map (·.weight)).sum)).sum
      = (votes.map (·.weight)).sum := by
  induction votes with
  | nil => simp
  | cons v vs ih =>
    have hv := h v (by simp)
    have hvs : ∀ w ∈ vs, 0 ≤ w.optionIndex ∧ w.optionIndex < (n : Int) :=
      fun w hw => h w (by simp [hw])
    have hfil : ∀ i : ℕ,
        (((v :: vs).filter (fun x => x.optionIndex = (i : Int))).map (·.weight)).sum =
          (if v.optionIndex = (i : Int) then v.weight else 0) +
            ((vs.filter (fun x => x.optionIndex = (i : Int))).map (·.weight)).sum := by
      intro i
      by_cases hc : v.optionIndex = (i : Int) <;> simp [List.filter_cons, hc]
    simp only [hfil]
    rw [sum_map_add_fun, sum_map_range_indicator n v.optionIndex v.weight hv.1 hv.2,
      ih hvs]
    simp

/-- C6 counterexample: the claim is false on the code.  The stored votes
for the proposal consist of one vote with the out-of-range
`optionIndex = -1` and weight 5 (storable, since the vote route does not
validate the index): the tabulation drops it from every option slot, so
`totalWeight = 0` while the weights of the stored Vote rows sum to 5 —
the vote is lost. -/
theorem tally_conservation_cex :
    getProposalVotes (tallyStore [(1, strayVote)]) activeProposal.id = [strayVote] ∧
    strayVote.optionIndex = -1 ∧
    (proposalTally (tallyStore [(1, strayVote)]) activeProposal).total = 0 ∧
    ((getProposalVotes (tallyStore [(1, strayVote)]) activeProposal.id).map
      (·.weight)).sum = 5 ∧
    (proposalTally (tallyStore [(1, strayVote)]) activeProposal).total ≠
      ((getProposalVotes (tallyStore [(1, strayVote)]) activeProposal.id).map
        (·.weight)).sum := by
  refine ⟨?_, rfl, ?_, ?_, ?_⟩
  · simp [tallyStore, emptyStore, getProposalVotes, mapValues, strayVote,
      activeProposal]
  · simp [proposalTally, tabulateVotes, tallyStore, emptyStore, getProposalVotes,
      mapValues, strayVote, activeProposal, List.range_succ]
  · simp [tallyStore, emptyStore, getProposalVotes, mapValues, strayVote,
      activeProposal]
  · simp [proposalTally, tabulateVotes, tallyStore, emptyStore, getProposalVotes,
      mapValues, strayVote, activeProposal, List.range_succ]

/-- C6 amended: tally conservation holds for every proposal all of whose
stored votes carry an in-range optionIndex: the per-option weights sum to
the tally's `totalWeight`, and `totalWeight` equals the sum of `weight`
over all stored Vote rows for the proposal (the first equation is
unconditional — `total` is computed by reducing the counts array; a
stored vote with an out-of-range index breaks the second, see the
counterexample). -/
theorem tally_conservation (s : MemStorage) (p : Proposal)
    (hrange : ∀ v ∈ getProposalVotes s p.id,
      0 ≤ v.optionIndex ∧ v.optionIndex < (p.options.length : Int)) :
    (proposalTally s p).counts.sum = (proposalTally s p).total ∧
    (proposalTally s p).total =
      ((getProposalVotes s p.id).map (·.weight)).sum := by
  constructor
  · rfl
  · exact sum_range_filter_weights p.options.length (getProposalVotes s p.id) hrange

theorem tally_conservation_witness :
    (∀ v ∈ getProposalVotes (tallyStore [(1, voteA), (2, voteB)]) activeProposal.id,
      0 ≤ v.optionIndex ∧ v.optionIndex < (activeProposal.options.length : Int)) ∧
    (proposalTally (tallyStore [(1, voteA), (2, voteB)]) activeProposal).counts.sum =
      (proposalTally (tallyStore [(1, voteA), (2, voteB)]) activeProposal).total ∧
    (proposalTally (tallyStore [(1, voteA), (2, voteB)]) activeProposal).total =
      ((getProposalVotes (tallyStore [(1, voteA), (2, voteB)]) activeProposal.id).map
        (·.weight)).sum := by
  have hr : ∀ v ∈ getProposalVotes (tallyStore [(1, voteA), (2, voteB)])
      activeProposal.id,
      0 ≤ v.optionIndex ∧ v.optionIndex < (activeProposal.options.length : Int) := by
    intro v hv
    simp [tallyStore, emptyStore, getProposalVotes, mapValues, voteA, voteB,
      activeProposal] at hv
    rcases hv with rfl | rfl <;> simp [voteA, voteB, activeProposal]
  have h := tally_conservation (tallyStore [(1, voteA), (2, voteB)]) activeProposal hr
  exact ⟨hr, h.1, h.2⟩

/-- C1: at-most-once distribution.  For a revenue event whose
`distributed` flag is already true, a (second) call to `distribute` fails
with `InvalidStateError` and returns the store unchanged — in particular
no additional Earning rows are created, so the one existing set of
Earnings for the event stays the only one; and no store operation ever
resets the flag: after any operation the event is still recorded as
distributed (the flag only ever flips false → true, via
`markRevenueDistributed`). -/
theorem distribute_at_most_once (s : MemStorage) (now : Int) (rid : Nat)
    (rev : Revenue)
    (hget : mapGet s.revenues rid = some rev) (hdist : rev.distributed = true)
    (hfresh : RevenueIdsFresh s) :
    distribute s now rid = (.error .invalidState, s) ∧
    ∀ (op : StoreOp) (now' : Int), ∃ rev' : Revenue,
      mapGet (applyOp s now' op).revenues rid = some rev' ∧
        rev'.distributed = true := by
  constructor
  · simp [distribute, hget, hdist]
  · intro op now'
    cases op with
    | createUser u => exact ⟨rev, hget, hdist⟩
    | createArtist a => exact ⟨rev, hget, hdist⟩
    | updateArtistContractAddress id addr =>
      cases h : mapGet s.artists id with
      | none =>
        exact ⟨rev, by simp [applyOp, updateArtistContractAddress, h, hget], hdist⟩
      | some artist =>
        exact ⟨rev, by simp [applyOp, updateArtistContractAddress, h, hget], hdist⟩
    | createToken t => exact ⟨rev, hget, hdist⟩
    | createProposal p => exact ⟨rev, hget, hdist⟩
    | updateProposalStatus id st =>
      cases h : mapGet s.proposals id with
      | none => exact ⟨rev, by simp [applyOp, updateProposalStatus, h, hget], hdist⟩
      | some p => exact ⟨rev, by simp [applyOp, updateProposalStatus, h, hget], hdist⟩
    | createVote v => exact ⟨rev, hget, hdist⟩
    | createRevenue r =>
      have hk : rid < s.currentIds.revenue := hfresh rid (mapGet_some_key_mem hget)
      have hne : s.currentIds.revenue ≠ rid := by omega
      exact ⟨rev, by simp [applyOp, createRevenue, mapGet_mapSet_ne _ _ hne, hget],
        hdist⟩
    | markRevenueDistributed id =>
      exact mark_preserves_distributed s id rid rev hget hdist
    | createEarning e => exact ⟨rev, hget, hdist⟩
    | distribute id =>
      show ∃ rev', mapGet ((distribute s now' id).2).revenues rid = some rev' ∧
        rev'.distributed = true
      cases h : mapGet s.revenues id with
      | none => exact ⟨rev, by simp [distribute, h, hget], hdist⟩
      | some r =>
        by_cases hd : r.distributed = true
        · exact ⟨rev, by simp [distribute, h, hd, hget], hdist⟩
        · cases ha : mapGet s.artists r.artistId with
          | none => exact ⟨rev, by simp [distribute, h, hd, ha, hget], hdist⟩
          | some artist =>
            simp only [distribute, h, hd, ha]
            refine mark_preserves_distributed _ id rid rev ?_ hdist
            rw [revenues_createEarning, revenues_createEarning,
              revenues_foldl_createEarning]
            exact hget

theorem distribute_at_most_once_witness :
    mapGet distributedRevenueStore.revenues 1 = some distributedRevenue ∧
    distributedRevenue.distributed = true ∧
    distribute distributedRevenueStore 0 1 =
      (.error .invalidState, distributedRevenueStore) := by
  refine ⟨rfl, rfl, ?_⟩
  exact (distribute_at_most_once distributedRevenueStore 0 1 distributedRevenue
    rfl rfl (by simp [RevenueIdsFresh, distributedRevenueStore, emptyStore])).1
